import Mathlib

/-!
Shallow embedding of the asynchronous interaction-event pipeline of
`src/main/webserver.go` (godnslog): the event-dispatcher loop
(`RunStoreRoutine`), the callback dispatcher (`dnsCallBack`), the retention
cleaner (`doClean`), the storage-error classifier (`IsDuplicate`) and the
shutdown sequence (`Shutdown`).

Go `int64` values are modelled as `Int`, `uint16` values as `Nat`,
timestamps as `Int` (seconds), and the in-process cache as a function from
string keys to optional values.  Fallible operations that can panic in Go
(unchecked type assertions) return `Option`, with `none` marking the panic.
-/

namespace GodnsLog

/-- Go `DnsRecord` as consumed by `RunStoreRoutine` (fields used there:
`Uid`, `Domain`, `Ip`, `Ctime`, `Callback`). -/
structure DnsRecord where
  uid : Int
  domain : String
  ip : String
  ctime : Int
  callback : String
deriving DecidableEq, Repr

/-- Go `HttpRecord` as it appears (commented out) in `RunStoreRoutine`. -/
structure HttpRecord where
  uid : Int
  url : String
  ip : String
  ua : String
  body : String
  ctype : String
  method : String
  ctime : Int
  callback : String
deriving DecidableEq, Repr

/-- The tagged union of interaction events delivered on the cache's output
channel; the Go source discriminates with a type switch on
`*DnsRecord` / `*HttpRecord`. -/
inductive Record where
  | dns (d : DnsRecord)
  | http (h : HttpRecord)
deriving DecidableEq, Repr

/-- Row of `models.TblDns` as inserted by `RunStoreRoutine`. -/
structure TblDns where
  uid : Int
  domain : String
  ip : String
  ctime : Int
deriving DecidableEq, Repr

/-- Row of `models.TblHttp` (the insert for it is commented out in the
source; the type is kept for the cleaner, which does delete such rows). -/
structure TblHttp where
  uid : Int
  url : String
  ctime : Int
deriving DecidableEq, Repr

/-- Row of `models.TblUser` as used by `doClean`: per-user retention
interval in seconds (`CleanInterval`). -/
structure TblUser where
  id : Int
  cleanInterval : Int
deriving DecidableEq, Repr

/-- `DefaultMaxCallbackErrorCount = 5` from the constant block. -/
def DefaultMaxCallbackErrorCount : Int := 5

/-- `fmt.Sprintf("%v.errcount", uid)`: Go's `%v` renders an `int64` in
decimal, so the key is the decimal id followed by `.errcount`. -/
def errorCountKey (uid : Int) : String := toString uid ++ ".errcount"

/-- Model of Go `fmt.Sprintf` applied to a format string that contains no
verb together with one extra `int64` operand: the format string is emitted
verbatim and fmt appends `%!(EXTRA int64=<value>)` for the unconsumed
operand. -/
def goSprintfNoVerbInt64 (format : String) (extra : Int) : String :=
  format ++ "%!(EXTRA int64=" ++ toString extra ++ ")"

/-- The profile-lookup key built by `doClean`:
`fmt.Sprintf("id.user", id)` — the format string has no verb, so the id is
an extra operand. -/
def userKey (id : Int) : String := goSprintfNoVerbInt64 "id.user" id

/-! ## Storage error classifier (`IsDuplicate`) -/

/-- Dynamic shape of a Go `error` value reaching `IsDuplicate`:
a `sqlite3.Error` (struct, field `Code`), a `*mysql.MySQLError`
(field `Number`, `uint16`), or any other error implementation. -/
inductive GoError where
  | sqliteErr (code : Int)
  | mysqlErr (number : Nat)
  | other (msg : String)
deriving DecidableEq, Repr

/-- `sqlite3.ErrConstraint` (SQLITE_CONSTRAINT = 19). -/
def sqlite3ErrConstraint : Int := 19

/-- `WebServer.IsDuplicate`.  `err` is `none` for a nil Go error.  The
driver name selects the branch.  In the `"sqlite3"` branch the checked
type assertion `err.(sqlite3.Error)` yields the zero value (Code 0) on
mismatch and only logs; in the `"mysql"` branch the assertion
`err.(*mysql.MySQLError)` is unchecked, so a mismatched shape panics —
modelled as `none`.  Every other driver falls through to `false`. -/
def IsDuplicate (driver : String) (err : Option GoError) : Option Bool :=
  match err with
  | none => some false
  | some e =>
      if driver = "sqlite3" then
        let code : Int := match e with
          | .sqliteErr c => c
          | _ => 0
        if code = sqlite3ErrConstraint then some true else some false
      else if driver = "mysql" then
        match e with
        | .mysqlErr n =>
            if n = 1062 ∨ n = 1169 ∨ n = 1022 then some true else some false
        | _ => none
      else some false

/-! ## Event dispatcher (`RunStoreRoutine`) and callback dispatcher -/

/-- The error-counter portion of the cache: keys of the form
`<uid>.errcount` hold `int64` counters written by `IncrementInt64` and
removed by `Delete`. -/
def CounterCache : Type := String → Option Int

/-- `cache.IncrementInt64(key, 1)`: atomic read-modify-write, treating an
absent key as zero. -/
def incrementInt64 (c : CounterCache) (k : String) : CounterCache :=
  fun k2 => if k2 = k then some ((c k).getD 0 + 1) else c k2

/-- `cache.Delete(key)`. -/
def cacheDelete (c : CounterCache) (k : String) : CounterCache :=
  fun k2 => if k2 = k then none else c k2

/-- Outcome of one `client.Do(req)` delivery attempt sequence: `success`
when a transport-level exchange completed (no error returned, whatever the
HTTP status code — the code never inspects `resp.StatusCode`), `failure`
when the client returned an error after its retries. -/
inductive CbOutcome where
  | success
  | failure
deriving DecidableEq, Repr

/-- An outbound HTTP request as built by
`retryablehttp.NewRequest("POST", rcd.Callback, nil)`. -/
structure HttpRequest where
  method : String
  url : String
  body : Option String
deriving DecidableEq, Repr

/-- The request issued for a DNS callback: POST, the record's callback
URL, nil (empty) body. -/
def dnsCallbackRequest (rcd : DnsRecord) : HttpRequest :=
  { method := "POST", url := rcd.callback, body := none }

/-- Retry configuration of the `retryablehttp` client built in
`RunStoreRoutine`. -/
structure RetryClientConfig where
  retryMax : Nat
  retryWaitMinSec : Nat
  retryWaitMaxSec : Nat
deriving DecidableEq, Repr

/-- `client.RetryMax = 3; client.RetryWaitMin = 5s; client.RetryWaitMax = 60s`. -/
def storeRoutineClient : RetryClientConfig :=
  { retryMax := 3, retryWaitMinSec := 5, retryWaitMaxSec := 60 }

/-- Modelled from the spec: the retry semantics of the hashicorp
`retryablehttp` client are not part of `src/`; per the spec (§4.2) the
client performs "bounded retry: maximum 3 attempts" governed by its
`RetryMax` field. -/
def maxAttempts (c : RetryClientConfig) : Nat := c.retryMax

/-- Modelled from the spec: exponential backoff wait before retry number
`i`, clamped between `RetryWaitMin` and `RetryWaitMax` ("exponential
backoff between 5s (minimum) and 60s (maximum)"). -/
def backoffWaitSec (c : RetryClientConfig) (i : Nat) : Nat :=
  min c.retryWaitMaxSec (c.retryWaitMinSec * 2 ^ i)

/-- Effect of the `dnsCallBack` closure on the counter cache, given the
delivery outcome: on error, `IncrementInt64(<uid>.errcount, 1)`; on
success, `Delete(<uid>.errcount)` (status codes are never inspected). -/
def dnsCallBack (outcome : CbOutcome) (rcd : DnsRecord) (c : CounterCache) :
    CounterCache :=
  match outcome with
  | .failure => incrementInt64 c (errorCountKey rcd.uid)
  | .success => cacheDelete c (errorCountKey rcd.uid)

/-- Observable state of the dispatcher loop: the counter cache, the list
of rows inserted into persistent storage (in insertion order), and the
list of outbound callback requests actually issued (in dispatch order). -/
structure DispatchState where
  cache : CounterCache
  inserted : List TblDns
  calls : List HttpRequest

/-- Initial state: empty cache, nothing persisted, no calls made. -/
def initState : DispatchState :=
  { cache := fun _ => none, inserted := [], calls := [] }

/-- Row inserted for a DNS record (`models.TblDns{Uid, Domain, Ip, Ctime}`). -/
def insertedRow (d : DnsRecord) : TblDns :=
  { uid := d.uid, domain := d.domain, ip := d.ip, ctime := d.ctime }

/-- The insert performed for a DNS event (`session.InsertOne`), under the
assumption that it succeeds (on failure the code calls `logrus.Fatalf`,
terminating the process). -/
def afterInsert (st : DispatchState) (d : DnsRecord) : DispatchState :=
  { st with inserted := st.inserted ++ [insertedRow d] }

/-- The callback-dispatch decision taken after the insert: when a callback
URL is present and the uid is positive, the error counter is consulted; if
it exists and is at or above `DefaultMaxCallbackErrorCount` the dispatch
is skipped (`break` — no request issued, cache untouched); otherwise the
`dnsCallBack` goroutine runs, issuing the request, with delivery
outcome `o`. -/
def dispatchGate (st : DispatchState) (d : DnsRecord) (o : CbOutcome) :
    DispatchState :=
  if d.callback ≠ "" ∧ 0 < d.uid then
    match st.cache (errorCountKey d.uid) with
    | some v =>
        if DefaultMaxCallbackErrorCount ≤ v then st
        else
          { st with
            calls := st.calls ++ [dnsCallbackRequest d]
            cache := dnsCallBack o d st.cache }
    | none =>
        { st with
          calls := st.calls ++ [dnsCallbackRequest d]
          cache := dnsCallBack o d st.cache }
  else st

/-- One iteration of the `*DnsRecord` arm of the dispatcher loop:
insert, then the gated asynchronous callback. -/
def processDns (st : DispatchState) (d : DnsRecord) (o : CbOutcome) :
    DispatchState :=
  dispatchGate (afterInsert st d) d o

/-- One iteration of the dispatcher loop on a delivered event.  The
`*HttpRecord` arm is entirely commented out in the source, so an HTTP
event leaves the state unchanged. -/
def processEvent (st : DispatchState) (e : Record) (o : CbOutcome) :
    DispatchState :=
  match e with
  | .dns d => processDns st d o
  | .http _ => st

/-- The dispatcher loop over a finite stream: events paired with the
outcome their callback delivery would have, consumed in delivery order,
strictly one at a time. -/
def runStore (st : DispatchState) : List (Record × CbOutcome) → DispatchState
  | [] => st
  | (e, o) :: rest => runStore (processEvent st e o) rest

/-! ## Retention cleaner (`doClean`) -/

/-- The user-profile portion of the cache: values stored under profile
keys are `*models.TblUser`. -/
def UserCache : Type := String → Option TblUser

/-- Surviving DNS rows after `doClean`'s two deletes for one user id with
cached profile `u`:
`session.Where("uid=?", id).And("ctime<?", t).Delete(...)` with
`t = now − u.CleanInterval` seconds removes exactly the rows of that uid
strictly older than the cutoff. -/
def cleanUserDns (now : Int) (u : TblUser) (id : Int) (rows : List TblDns) :
    List TblDns :=
  rows.filter fun r => ¬ (r.uid = id ∧ r.ctime < now - u.cleanInterval)

/-- Same deletion for HTTP rows. -/
def cleanUserHttp (now : Int) (u : TblUser) (id : Int) (rows : List TblHttp) :
    List TblHttp :=
  rows.filter fun r => ¬ (r.uid = id ∧ r.ctime < now - u.cleanInterval)

/-- The per-id loop of `doClean` over the DNS table: for each user id,
look up `userKey id` in the cache; on a hit, delete that user's expired
rows; on a miss, skip the user for this run. -/
def doCleanDns (cache : UserCache) (now : Int) :
    List Int → List TblDns → List TblDns
  | [], rows => rows
  | id :: ids, rows =>
      match cache (userKey id) with
      | some u => doCleanDns cache now ids (cleanUserDns now u id rows)
      | none => doCleanDns cache now ids rows

/-- The per-id loop of `doClean` over the HTTP table. -/
def doCleanHttp (cache : UserCache) (now : Int) :
    List Int → List TblHttp → List TblHttp
  | [], rows => rows
  | id :: ids, rows =>
      match cache (userKey id) with
      | some u => doCleanHttp cache now ids (cleanUserHttp now u id rows)
      | none => doCleanHttp cache now ids rows

/-! ## Lifecycle (`Shutdown` and loop termination) -/

/-- Atomic observable actions of the dispatcher loop and `Shutdown`. -/
inductive LifeAction where
  | insertEvent
  | quitSignal
  | listenerShutdown
  | waitQuit
  | ormClose
deriving DecidableEq, Repr

/-- Action trace of `RunStoreRoutine` on a finite (closed) stream: one
insert per delivered event, then — when the receive reports the channel
closed — the loop breaks and executes `close(self.storeQuit)` once. -/
def runStoreTrace (events : List Record) : List LifeAction :=
  events.map (fun _ => LifeAction.insertEvent) ++ [LifeAction.quitSignal]

/-- `Shutdown(ctx)` executed after the actions in `pre` have already
happened: it stops the HTTP listener (`s.Shutdown(ctx)`), then receives
from `storeQuit` — which completes only if `close(storeQuit)` already
fired, and blocks forever (`none`, a deadlock) otherwise — and finally
closes the storage engine (`orm.Close()`). -/
def shutdownRun (pre : List LifeAction) : Option (List LifeAction) :=
  let t1 := pre ++ [LifeAction.listenerShutdown]
  if LifeAction.quitSignal ∈ t1 then
    some (t1 ++ [LifeAction.waitQuit, LifeAction.ormClose])
  else none

/-! ## Concrete sample data used by witnesses and counterexamples -/

/-- A concrete DNS event with a callback target and positive uid. -/
def dSample : DnsRecord :=
  { uid := 7, domain := "a.evil.example", ip := "1.2.3.4", ctime := 100,
    callback := "http://cb.example/hook" }

/-- A concrete HTTP event with a callback target and positive uid. -/
def hSample : HttpRecord :=
  { uid := 7, url := "http://x.example/log/a", ip := "1.2.3.4", ua := "curl",
    body := "", ctype := "", method := "GET", ctime := 100,
    callback := "http://cb.example/hook" }

/-- The last character of a string, if any. -/
def lastChar (s : String) : Option Char := s.data.getLast?

/-- The row a dispatcher iteration persists for an event, if any: one row
for a DNS event, none for an HTTP event (that arm is commented out). -/
def persistedRowOf : Record → Option TblDns
  | .dns d => some (insertedRow d)
  | .http _ => none

/-- The dispatcher state after `k` consecutive failing deliveries of a
single DNS event, starting from the initial state. -/
def failRun (d : DnsRecord) (k : Nat) : DispatchState :=
  runStore initState (List.replicate k (Record.dns d, CbOutcome.failure))

/-- Sample user with the default 7200-second retention interval. -/
def uSample : TblUser := { id := 7, cleanInterval := 7200 }

/-- Sample cache holding only user 7's profile, under `doClean`'s key. -/
def cacheSample : UserCache :=
  fun k => if k = userKey 7 then some uSample else none

/-- A row timestamped 09:59:59 when the run happens at 12:00:00. -/
def rowOld : TblDns := { uid := 7, domain := "old", ip := "i", ctime := 35999 }

/-- A row timestamped 10:00:01 when the run happens at 12:00:00. -/
def rowNew : TblDns := { uid := 7, domain := "new", ip := "i", ctime := 36001 }

/-! ## Classifier theorems -/

/-- Computation rule for the mysql branch on a native mysql error. -/
theorem isDuplicate_mysql_native (n : Nat) :
    IsDuplicate "mysql" (some (GoError.mysqlErr n))
      = if n = 1062 ∨ n = 1169 ∨ n = 1022 then some true else some false := rfl

/-- Computation rule for the sqlite3 branch on a native sqlite error. -/
theorem isDuplicate_sqlite_native (c : Int) :
    IsDuplicate "sqlite3" (some (GoError.sqliteErr c))
      = if c = sqlite3ErrConstraint then some true else some false := rfl

/-- Fallthrough rule for a driver that is neither sqlite3 nor mysql. -/
theorem isDuplicate_other_driver (driver : String) (err : Option GoError)
    (h1 : driver ≠ "sqlite3") (h2 : driver ≠ "mysql") :
    IsDuplicate driver err = some false := by
  cases err with
  | none => rfl
  | some e =>
      show (if driver = "sqlite3" then _ else if driver = "mysql" then _ else some false)
        = some false
      rw [if_neg h1, if_neg h2]

/-- C9: for every backend identifier, `IsDuplicate` applied to a nil
error returns `false`; the nil check precedes the driver switch, so the
result does not depend on the backend at all. -/
theorem isDuplicate_nil_error :
    (∀ driver : String, IsDuplicate driver none = some false)
    ∧ ∀ d1 d2 : String, IsDuplicate d1 none = IsDuplicate d2 none :=
  ⟨fun _ => rfl, fun _ _ => rfl⟩

/-- C3: the classifier implements the enumerated mapping: for driver
`mysql` and a native mysql error it returns `true` exactly for error
numbers 1062, 1169, 1022 (so 1062 ↦ true and 1234 ↦ false); for driver
`sqlite3` and a native sqlite error it returns `true` exactly for the
constraint-violation code; any other driver yields `false` for every
error value. -/
theorem isDuplicate_enumerated_mapping :
    (∀ n : Nat,
        IsDuplicate "mysql" (some (GoError.mysqlErr n)) = some true
          ↔ n = 1062 ∨ n = 1169 ∨ n = 1022)
    ∧ IsDuplicate "mysql" (some (GoError.mysqlErr 1062)) = some true
    ∧ IsDuplicate "mysql" (some (GoError.mysqlErr 1234)) = some false
    ∧ (∀ c : Int,
        IsDuplicate "sqlite3" (some (GoError.sqliteErr c)) = some true
          ↔ c = sqlite3ErrConstraint)
    ∧ ∀ (driver : String) (err : Option GoError),
        driver ≠ "sqlite3" → driver ≠ "mysql" →
        IsDuplicate driver err = some false := by
  refine ⟨fun n => ?_, by decide, by decide, fun c => ?_,
    fun driver err h1 h2 => isDuplicate_other_driver driver err h1 h2⟩
  · rw [isDuplicate_mysql_native]
    by_cases h : n = 1062 ∨ n = 1169 ∨ n = 1022
    · simp [h]
    · simp [if_neg h, h]
  · rw [isDuplicate_sqlite_native]
    by_cases h : c = sqlite3ErrConstraint
    · simp [h]
    · simp [if_neg h, h]

/-- Witness instantiating C3's theorem at concrete inputs. -/
theorem isDuplicate_enumerated_mapping_witness :
    (IsDuplicate "mysql" (some (GoError.mysqlErr 1169)) = some true)
    ∧ IsDuplicate "postgres" (some (GoError.other "boom")) = some false :=
  ⟨(isDuplicate_enumerated_mapping.1 1169).mpr (by decide),
    isDuplicate_enumerated_mapping.2.2.2.2 "postgres"
      (some (GoError.other "boom")) (by decide) (by decide)⟩

/-- C2 (code bug): with driver `mysql`, an error value that is not a
`*mysql.MySQLError` hits the unchecked type assertion
`err.(*mysql.MySQLError)` and panics (`none` in the model) instead of
returning `false`; the sqlite3 branch, by contrast, degrades gracefully
on mismatch, as does every unsupported driver. -/
theorem isDuplicate_mysql_mismatch_panics :
    IsDuplicate "mysql" (some (GoError.other "not a mysql error")) = none
    ∧ IsDuplicate "mysql" (some (GoError.sqliteErr sqlite3ErrConstraint)) = none
    ∧ IsDuplicate "mysql" (some (GoError.other "not a mysql error")) ≠ some false
    ∧ IsDuplicate "sqlite3" (some (GoError.other "not a sqlite error")) = some false := by
  refine ⟨rfl, rfl, ?_, rfl⟩
  intro h
  exact Option.noConfusion h

/-! ## Cache-key theorems -/

/-- Appending a nonempty string determines the last character. -/
theorem lastChar_append (s t : String) (h : t.data ≠ []) :
    lastChar (s ++ t) = lastChar t := by
  unfold lastChar
  rw [String.data_append]
  exact List.getLast?_append_of_ne_nil _ h

/-- C10: for every user id `n`, the profile-lookup key `doClean` builds
is `fmt.Sprintf("id.user", n) = "id.user%!(EXTRA int64=<n>)"`; this never
coincides with a key of the form `"<id>.user"` (the convention the
`"<id>.errcount"` failure-counter key follows), so the cleanup's profile
lookup key differs from every such key. -/
theorem doClean_user_lookup_key_malformed :
    (∀ n : Int, userKey n = "id.user%!(EXTRA int64=" ++ toString n ++ ")")
    ∧ (∀ n m : Int, userKey n ≠ toString m ++ ".user")
    ∧ ∀ n : Int, errorCountKey n = toString n ++ ".errcount" := by
  refine ⟨fun _ => rfl, fun n m h => ?_, fun _ => rfl⟩
  have h1 : lastChar (userKey n) = some ')' := by
    have := lastChar_append ("id.user%!(EXTRA int64=" ++ toString n) ")" (by decide)
    simpa [userKey, goSprintfNoVerbInt64] using this
  have h2 : lastChar (toString m ++ ".user") = some 'r' := by
    have := lastChar_append (toString m) ".user" (by decide)
    simpa using this
  rw [h] at h1
  rw [h1] at h2
  exact absurd h2 (by decide)

/-- Witness instantiating C10's theorem at id 7. -/
theorem doClean_user_lookup_key_malformed_witness :
    userKey 7 = "id.user%!(EXTRA int64=7)"
    ∧ userKey 7 ≠ toString (7 : Int) ++ ".user" :=
  ⟨doClean_user_lookup_key_malformed.1 7,
    doClean_user_lookup_key_malformed.2.1 7 7⟩

/-! ## Dispatcher-loop theorems -/

/-- The callback gate never touches the persistence log. -/
theorem dispatchGate_inserted (st : DispatchState) (d : DnsRecord) (o : CbOutcome) :
    (dispatchGate st d o).inserted = st.inserted := by
  unfold dispatchGate
  split
  · split
    · split <;> rfl
    · rfl
  · rfl

/-- A DNS iteration appends exactly its row to the persistence log. -/
theorem processDns_inserted (st : DispatchState) (d : DnsRecord) (o : CbOutcome) :
    (processDns st d o).inserted = st.inserted ++ [insertedRow d] := by
  unfold processDns
  rw [dispatchGate_inserted]
  rfl

/-- C1 counterexample: an HTTP interaction event is delivered and, with
every insert succeeding, the dispatcher persists no record at all for it
— not the one record per event the claim requires. -/
theorem http_event_persists_no_record :
    (runStore initState [(Record.http hSample, CbOutcome.success)]).inserted = []
    ∧ (runStore initState [(Record.http hSample, CbOutcome.success)]).inserted.length
        ≠ [(Record.http hSample, CbOutcome.success)].length := by decide

/-- C1 amended: for every finite sequence of delivered events, assuming
every insert succeeds, the dispatcher persists exactly one record per
DnsInteraction event, in delivery order, with no loss or duplication;
HttpInteraction events are not persisted at all (that arm is inert). -/
theorem runStore_persists_one_row_per_dns_event
    (st : DispatchState) (evs : List (Record × CbOutcome)) :
    (runStore st evs).inserted
      = st.inserted ++ evs.filterMap (fun p => persistedRowOf p.1) := by
  induction evs generalizing st with
  | nil => simp [runStore]
  | cons p rest ih =>
      obtain ⟨e, o⟩ := p
      cases e with
      | dns d =>
          rw [runStore, ih]
          have h1 : processEvent st (Record.dns d) o = processDns st d o := rfl
          rw [h1, processDns_inserted]
          simp [persistedRowOf]
      | http hh =>
          rw [runStore, ih]
          have h1 : processEvent st (Record.http hh) o = st := rfl
          rw [h1]
          simp [persistedRowOf]

/-- Every request the callback gate may add is the POST for its record. -/
theorem dispatchGate_calls_sub (st : DispatchState) (d : DnsRecord) (o : CbOutcome)
    (req : HttpRequest) (h : req ∈ (dispatchGate st d o).calls) :
    req ∈ st.calls ∨ req = dnsCallbackRequest d := by
  unfold dispatchGate at h
  split at h
  · split at h
    · split at h
      · exact Or.inl h
      · rcases List.mem_append.mp h with h1 | h1
        · exact Or.inl h1
        · exact Or.inr (List.mem_singleton.mp h1)
    · rcases List.mem_append.mp h with h1 | h1
      · exact Or.inl h1
      · exact Or.inr (List.mem_singleton.mp h1)
  · exact Or.inl h

/-- Every request the loop issues comes from a DNS event of the stream. -/
theorem runStore_calls_sub (evs : List (Record × CbOutcome)) (st : DispatchState)
    (req : HttpRequest) (h : req ∈ (runStore st evs).calls) :
    req ∈ st.calls
      ∨ ∃ p ∈ evs, ∃ d, p.1 = Record.dns d ∧ req = dnsCallbackRequest d := by
  induction evs generalizing st with
  | nil => exact Or.inl h
  | cons p rest ih =>
      obtain ⟨e, o⟩ := p
      rw [runStore] at h
      rcases ih _ h with h1 | h1
      · cases e with
        | dns d =>
            rcases dispatchGate_calls_sub (afterInsert st d) d o req h1 with h2 | h2
            · exact Or.inl h2
            · exact Or.inr ⟨(Record.dns d, o), List.mem_cons_self _ _, d, rfl, h2⟩
        | http hh => exact Or.inl h1
      · obtain ⟨q, hq, dd, hdd, hreq⟩ := h1
        exact Or.inr ⟨q, List.mem_cons_of_mem _ hq, dd, hdd, hreq⟩

/-- C8: every callback delivery the dispatcher actually issues is an HTTP
POST with an empty body to the originating DNS event's callback URL,
through the client configured with at most 3 attempts and exponential
backoff waits bounded between 5 and 60 seconds. -/
theorem callback_post_empty_body_bounded_retry
    (evs : List (Record × CbOutcome)) (req : HttpRequest)
    (hreq : req ∈ (runStore initState evs).calls) :
    req.method = "POST" ∧ req.body = none
    ∧ (∃ p ∈ evs, ∃ d, p.1 = Record.dns d ∧ req.url = d.callback)
    ∧ maxAttempts storeRoutineClient = 3
    ∧ ∀ i : Nat, 5 ≤ backoffWaitSec storeRoutineClient i
        ∧ backoffWaitSec storeRoutineClient i ≤ 60 := by
  rcases runStore_calls_sub evs initState req hreq with h | h
  · simp [initState] at h
  · obtain ⟨p, hp, d, hpd, hr⟩ := h
    subst hr
    refine ⟨rfl, rfl, ⟨p, hp, d, hpd, rfl⟩, rfl, fun i => ⟨?_, ?_⟩⟩
    · show (5 : Nat) ≤ min 60 (5 * 2 ^ i)
      refine le_min (by norm_num) ?_
      calc (5 : Nat) = 5 * 1 := by norm_num
        _ ≤ 5 * 2 ^ i := Nat.mul_le_mul_left 5 (Nat.one_le_pow i 2 (by norm_num))
    · exact min_le_left _ _

/-- Witness instantiating C8's theorem on a one-event stream. -/
theorem callback_post_empty_body_bounded_retry_witness :
    (dnsCallbackRequest dSample).method = "POST"
    ∧ (dnsCallbackRequest dSample).body = none
    ∧ maxAttempts storeRoutineClient = 3 := by
  have h := callback_post_empty_body_bounded_retry
    [(Record.dns dSample, CbOutcome.success)] (dnsCallbackRequest dSample) (by decide)
  exact ⟨h.1, h.2.1, h.2.2.2.1⟩

/-! ## Failure-counter (circuit breaker) theorems -/

/-- The insert step leaves the counter cache untouched. -/
theorem afterInsert_cache (st : DispatchState) (d : DnsRecord) :
    (afterInsert st d).cache = st.cache := rfl

/-- A dispatched delivery that fails against an absent counter sets it to 1. -/
theorem processDns_failure_fresh (st : DispatchState) (d : DnsRecord)
    (hcb : d.callback ≠ "") (hu : 0 < d.uid)
    (h : st.cache (errorCountKey d.uid) = none) :
    (processDns st d CbOutcome.failure).cache (errorCountKey d.uid) = some 1 := by
  unfold processDns dispatchGate
  rw [if_pos ⟨hcb, hu⟩]
  simp only [afterInsert_cache, h]
  simp [dnsCallBack, incrementInt64, h]

/-- A dispatched delivery that fails below the cap increments the counter. -/
theorem processDns_failure_incr (st : DispatchState) (d : DnsRecord) (v : Int)
    (hcb : d.callback ≠ "") (hu : 0 < d.uid)
    (h : st.cache (errorCountKey d.uid) = some v)
    (hlt : v < DefaultMaxCallbackErrorCount) :
    (processDns st d CbOutcome.failure).cache (errorCountKey d.uid) = some (v + 1) := by
  unfold processDns dispatchGate
  rw [if_pos ⟨hcb, hu⟩]
  simp only [afterInsert_cache, h]
  rw [if_neg (not_le.mpr hlt)]
  simp [dnsCallBack, incrementInt64, h]

/-- At or above the cap, the iteration leaves cache and calls untouched. -/
theorem processDns_skip_at_cap (st : DispatchState) (d : DnsRecord)
    (o : CbOutcome) (v : Int)
    (h : st.cache (errorCountKey d.uid) = some v)
    (hcap : DefaultMaxCallbackErrorCount ≤ v) :
    (processDns st d o).cache = st.cache ∧ (processDns st d o).calls = st.calls := by
  unfold processDns dispatchGate
  by_cases hc : d.callback ≠ "" ∧ 0 < d.uid
  · rw [if_pos hc]
    simp only [afterInsert_cache, h]
    rw [if_pos hcap]
    exact ⟨rfl, rfl⟩
  · rw [if_neg hc]
    exact ⟨rfl, rfl⟩

/-- Running `k` consecutive failing deliveries from a counter at `v` ends
with the counter at `v + k`, provided the cap is never reached. -/
theorem runStore_consecutive_failures (d : DnsRecord)
    (hcb : d.callback ≠ "") (hu : 0 < d.uid) :
    ∀ (k : Nat) (v : Int) (st : DispatchState),
      st.cache (errorCountKey d.uid) = some v →
      v + k ≤ DefaultMaxCallbackErrorCount →
      (runStore st (List.replicate k (Record.dns d, CbOutcome.failure))).cache
        (errorCountKey d.uid) = some (v + k) := by
  intro k
  induction k with
  | zero => intro v st hv _; simpa using hv
  | succ n ih =>
      intro v st hv hk
      have hc5 : DefaultMaxCallbackErrorCount = 5 := rfl
      rw [hc5] at hk
      have hlt : v < DefaultMaxCallbackErrorCount := by
        rw [hc5]
        push_cast at hk
        omega
      have hstep := processDns_failure_incr st d v hcb hu hv hlt
      have hle : (v + 1) + (n : Int) ≤ DefaultMaxCallbackErrorCount := by
        rw [hc5]
        push_cast at hk ⊢
        omega
      have htail := ih (v + 1) (processEvent st (Record.dns d) CbOutcome.failure)
        hstep hle
      rw [List.replicate_succ, runStore, htail]
      congr 1
      push_cast
      ring

/-- C4: for a user with a callback target, after `k` consecutive failed
deliveries (`k ≤` cap 5, absence standing for 0) the failure counter
equals `k`; once the counter is at or above the cap, a further DNS event
for that user skips dispatch entirely — no request is issued and the
cache is untouched — and a single successful delivery clears the counter
to absent. -/
theorem failureCounter_circuit_breaker (d : DnsRecord)
    (hcb : d.callback ≠ "") (hu : 0 < d.uid) :
    (∀ k : Nat, k ≤ 5 →
        (failRun d k).cache (errorCountKey d.uid)
          = if k = 0 then none else some (k : Int))
    ∧ (∀ (st : DispatchState) (o : CbOutcome) (v : Int),
        st.cache (errorCountKey d.uid) = some v →
        DefaultMaxCallbackErrorCount ≤ v →
        (processDns st d o).calls = st.calls ∧ (processDns st d o).cache = st.cache)
    ∧ ∀ c : CounterCache,
        dnsCallBack CbOutcome.success d c (errorCountKey d.uid) = none := by
  refine ⟨fun k hk => ?_, fun st o v hv hcap => ?_, fun c => ?_⟩
  · cases k with
    | zero => rfl
    | succ n =>
        rw [if_neg (Nat.succ_ne_zero n)]
        unfold failRun
        rw [List.replicate_succ, runStore]
        have h0 : initState.cache (errorCountKey d.uid) = none := rfl
        have h1 := processDns_failure_fresh initState d hcb hu h0
        have hle : (1 : Int) + (n : Int) ≤ DefaultMaxCallbackErrorCount := by
          show (1 : Int) + (n : Int) ≤ 5
          omega
        have h2 := runStore_consecutive_failures d hcb hu n 1
          (processEvent initState (Record.dns d) CbOutcome.failure) h1 hle
        rw [h2]
        congr 1
        push_cast
        ring
  · have h := processDns_skip_at_cap st d o v hv hcap
    exact ⟨h.2, h.1⟩
  · simp [dnsCallBack, cacheDelete]

/-- Witness instantiating C4's theorem: five consecutive failures leave
the sample user's counter at 5. -/
theorem failureCounter_circuit_breaker_witness :
    (failRun dSample 5).cache (errorCountKey 7) = some 5 := by
  have h := (failureCounter_circuit_breaker dSample (by decide) (by decide)).1 5
    (by decide)
  exact h.trans (by decide)

/-- C5: a delivery attempt whose transport-level exchange completes (the
client returns no error; status codes are never inspected) clears the
user's failure counter to absent, whatever value — or absence — it had
before; consequently a dispatched successful delivery leaves the counter
absent after the loop iteration. -/
theorem callback_success_clears_counter :
    (∀ (c : CounterCache) (rcd : DnsRecord),
        dnsCallBack CbOutcome.success rcd c (errorCountKey rcd.uid) = none)
    ∧ ∀ (st : DispatchState) (d : DnsRecord), d.callback ≠ "" → 0 < d.uid →
        (∀ v : Int, st.cache (errorCountKey d.uid) = some v →
            v < DefaultMaxCallbackErrorCount) →
        (processDns st d CbOutcome.success).cache (errorCountKey d.uid) = none := by
  constructor
  · intro c rcd
    simp [dnsCallBack, cacheDelete]
  · intro st d hcb hu hbelow
    unfold processDns dispatchGate
    rw [if_pos ⟨hcb, hu⟩]
    cases hv : st.cache (errorCountKey d.uid) with
    | none =>
        simp only [afterInsert_cache, hv]
        simp [dnsCallBack, cacheDelete]
    | some v =>
        simp only [afterInsert_cache, hv]
        rw [if_neg (not_le.mpr (hbelow v hv))]
        simp [dnsCallBack, cacheDelete]

/-- Witness instantiating C5's theorem on the sample event. -/
theorem callback_success_clears_counter_witness :
    (processDns initState dSample CbOutcome.success).cache (errorCountKey 7) = none := by
  have h := callback_success_clears_counter.2 initState dSample (by decide) (by decide)
    (fun v hv => by simp [initState] at hv)
  exact h

/-! ## Retention-cleaner theorems -/

/-- Membership after one user's DNS deletion pass. -/
theorem mem_cleanUserDns (now : Int) (u : TblUser) (id : Int)
    (rows : List TblDns) (r : TblDns) :
    r ∈ cleanUserDns now u id rows
      ↔ r ∈ rows ∧ ¬ (r.uid = id ∧ r.ctime < now - u.cleanInterval) := by
  unfold cleanUserDns
  simp [List.mem_filter]
  tauto

/-- Membership after one user's HTTP deletion pass. -/
theorem mem_cleanUserHttp (now : Int) (u : TblUser) (id : Int)
    (rows : List TblHttp) (r : TblHttp) :
    r ∈ cleanUserHttp now u id rows
      ↔ r ∈ rows ∧ ¬ (r.uid = id ∧ r.ctime < now - u.cleanInterval) := by
  unfold cleanUserHttp
  simp [List.mem_filter]
  tauto

/-- Characterization of survival of a DNS row through a full cleanup run:
the row survives iff it was present and no cache-hit user id marks it
expired. -/
theorem mem_doCleanDns (cache : UserCache) (now : Int) :
    ∀ (ids : List Int) (rows : List TblDns) (r : TblDns),
      r ∈ doCleanDns cache now ids rows
        ↔ r ∈ rows ∧ ∀ i ∈ ids, ∀ u : TblUser, cache (userKey i) = some u →
            ¬ (r.uid = i ∧ r.ctime < now - u.cleanInterval) := by
  intro ids
  induction ids with
  | nil => intro rows r; simp [doCleanDns]
  | cons i ids ih =>
      intro rows r
      rw [doCleanDns]
      cases hc : cache (userKey i) with
      | none =>
          simp only []
          rw [ih]
          simp [List.forall_mem_cons, hc]
      | some u0 =>
          simp only []
          rw [ih, mem_cleanUserDns]
          simp [List.forall_mem_cons, hc, and_assoc]

/-- Same characterization for HTTP rows. -/
theorem mem_doCleanHttp (cache : UserCache) (now : Int) :
    ∀ (ids : List Int) (rows : List TblHttp) (r : TblHttp),
      r ∈ doCleanHttp cache now ids rows
        ↔ r ∈ rows ∧ ∀ i ∈ ids, ∀ u : TblUser, cache (userKey i) = some u →
            ¬ (r.uid = i ∧ r.ctime < now - u.cleanInterval) := by
  intro ids
  induction ids with
  | nil => intro rows r; simp [doCleanHttp]
  | cons i ids ih =>
      intro rows r
      rw [doCleanHttp]
      cases hc : cache (userKey i) with
      | none =>
          simp only []
          rw [ih]
          simp [List.forall_mem_cons, hc]
      | some u0 =>
          simp only []
          rw [ih, mem_cleanUserHttp]
          simp [List.forall_mem_cons, hc, and_assoc]

/-- C6: for a user id enumerated by the run whose profile is found in the
key/value store with retention interval `u.cleanInterval`, a cleanup run
at time `now` deletes exactly that user's DNS and HTTP rows whose
timestamp is strictly earlier than `now − interval`, and retains every
row with timestamp at or after the cutoff. -/
theorem doClean_retention_cutoff
    (cache : UserCache) (now : Int) (ids : List Int) (id : Int) (u : TblUser)
    (hmem : id ∈ ids) (hhit : cache (userKey id) = some u) :
    (∀ (rows : List TblDns) (r : TblDns), r.uid = id →
        (r ∈ doCleanDns cache now ids rows
          ↔ r ∈ rows ∧ now - u.cleanInterval ≤ r.ctime))
    ∧ ∀ (rows : List TblHttp) (r : TblHttp), r.uid = id →
        (r ∈ doCleanHttp cache now ids rows
          ↔ r ∈ rows ∧ now - u.cleanInterval ≤ r.ctime) := by
  constructor
  · intro rows r hr
    rw [mem_doCleanDns]
    constructor
    · rintro ⟨hrow, hall⟩
      refine ⟨hrow, ?_⟩
      have hnot := hall id hmem u hhit
      have : ¬ r.ctime < now - u.cleanInterval := fun hlt => hnot ⟨hr, hlt⟩
      exact not_lt.mp this
    · rintro ⟨hrow, hcut⟩
      refine ⟨hrow, fun i hi v hv => ?_⟩
      rintro ⟨huid, hct⟩
      have hid : i = id := by rw [← huid]; exact hr
      subst hid
      rw [hhit] at hv
      have hvu : v = u := (Option.some.inj hv).symm
      subst hvu
      exact absurd hct (not_lt.mpr hcut)
  · intro rows r hr
    rw [mem_doCleanHttp]
    constructor
    · rintro ⟨hrow, hall⟩
      refine ⟨hrow, ?_⟩
      have hnot := hall id hmem u hhit
      have : ¬ r.ctime < now - u.cleanInterval := fun hlt => hnot ⟨hr, hlt⟩
      exact not_lt.mp this
    · rintro ⟨hrow, hcut⟩
      refine ⟨hrow, fun i hi v hv => ?_⟩
      rintro ⟨huid, hct⟩
      have hid : i = id := by rw [← huid]; exact hr
      subst hid
      rw [hhit] at hv
      have hvu : v = u := (Option.some.inj hv).symm
      subst hvu
      exact absurd hct (not_lt.mpr hcut)

/-- Witness instantiating C6's theorem on the spec's worked example:
interval 7200 s, run at 12:00:00 (= 43200 s); the 09:59:59 row is
deleted, the 10:00:01 row is retained. -/
theorem doClean_retention_cutoff_witness :
    rowNew ∈ doCleanDns cacheSample 43200 [7, 8] [rowOld, rowNew]
    ∧ rowOld ∉ doCleanDns cacheSample 43200 [7, 8] [rowOld, rowNew] := by
  have h := doClean_retention_cutoff cacheSample 43200 [7, 8] 7 uSample
    (by decide) rfl
  constructor
  · exact (h.1 [rowOld, rowNew] rowNew rfl).mpr ⟨by decide, by decide⟩
  · intro hin
    have hprop := (h.1 [rowOld, rowNew] rowOld rfl).mp hin
    exact absurd hprop.2 (by decide)

/-! ## Lifecycle theorems -/

/-- The quit signal never occurs among the per-event inserts. -/
theorem quit_not_mem_inserts (events : List Record) :
    LifeAction.quitSignal ∉ events.map fun _ => LifeAction.insertEvent := by
  intro hmem
  obtain ⟨a, _, ha⟩ := List.mem_map.mp hmem
  exact LifeAction.noConfusion ha

/-- Index of a non-insert action past the per-event insert prefix. -/
theorem indexOf_after_inserts (events : List Record) (suffix : List LifeAction)
    (x : LifeAction) (hx : x ≠ LifeAction.insertEvent) :
    ((events.map fun _ => LifeAction.insertEvent) ++ suffix).indexOf x
      = events.length + suffix.indexOf x := by
  have hnot : x ∉ events.map fun _ => LifeAction.insertEvent := by
    intro hmem
    obtain ⟨a, _, ha⟩ := List.mem_map.mp hmem
    exact hx ha.symm
  rw [List.indexOf_append_of_not_mem hnot, List.length_map]

/-- C7: invoked after the event stream has been closed, shutdown completes
(no deadlock: the model returns `some` trace); the trace contains the
listener stop, fires the dispatcher's completion signal exactly once, and
orders quit signal before the wait on it and the wait before the storage
release, which all occur within the trace. -/
theorem shutdown_after_stream_closed (events : List Record) :
    ∃ tr : List LifeAction,
      shutdownRun (runStoreTrace events) = some tr
      ∧ tr.count LifeAction.quitSignal = 1
      ∧ LifeAction.listenerShutdown ∈ tr
      ∧ tr.indexOf LifeAction.quitSignal < tr.indexOf LifeAction.waitQuit
      ∧ tr.indexOf LifeAction.waitQuit < tr.indexOf LifeAction.ormClose
      ∧ tr.indexOf LifeAction.ormClose < tr.length := by
  refine ⟨(events.map fun _ => LifeAction.insertEvent)
      ++ [LifeAction.quitSignal, LifeAction.listenerShutdown,
          LifeAction.waitQuit, LifeAction.ormClose], ?_, ?_, ?_, ?_, ?_, ?_⟩
  · unfold shutdownRun runStoreTrace
    rw [if_pos]
    · congr 1
      simp
    · exact List.mem_append.mpr (Or.inl (List.mem_append.mpr (Or.inr (by decide))))
  · rw [List.count_append, List.count_eq_zero.mpr (quit_not_mem_inserts events)]
    rfl
  · exact List.mem_append.mpr (Or.inr (by decide))
  · rw [indexOf_after_inserts _ _ _ (by decide), indexOf_after_inserts _ _ _ (by decide),
      show List.indexOf LifeAction.quitSignal
          [LifeAction.quitSignal, LifeAction.listenerShutdown,
            LifeAction.waitQuit, LifeAction.ormClose] = 0 from by decide,
      show List.indexOf LifeAction.waitQuit
          [LifeAction.quitSignal, LifeAction.listenerShutdown,
            LifeAction.waitQuit, LifeAction.ormClose] = 2 from by decide]
    omega
  · rw [indexOf_after_inserts _ _ _ (by decide), indexOf_after_inserts _ _ _ (by decide),
      show List.indexOf LifeAction.waitQuit
          [LifeAction.quitSignal, LifeAction.listenerShutdown,
            LifeAction.waitQuit, LifeAction.ormClose] = 2 from by decide,
      show List.indexOf LifeAction.ormClose
          [LifeAction.quitSignal, LifeAction.listenerShutdown,
            LifeAction.waitQuit, LifeAction.ormClose] = 3 from by decide]
    omega
  · rw [indexOf_after_inserts _ _ _ (by decide), List.length_append, List.length_map,
      show List.indexOf LifeAction.ormClose
          [LifeAction.quitSignal, LifeAction.listenerShutdown,
            LifeAction.waitQuit, LifeAction.ormClose] = 3 from by decide,
      show [LifeAction.quitSignal, LifeAction.listenerShutdown,
            LifeAction.waitQuit, LifeAction.ormClose].length = 4 from by decide]
    omega

end GodnsLog
